import Mathlib

/-!
Verification of the slide-deck presenter core (src/app.js).

The program is a browser slide editor.  Its state is the module-level
object `state = { slides, current }`; slides are the values held in the
`slides` array (arbitrary JSON values after a load or import), `current`
is the index of the active slide.  We embed the JSON data model and the
state-mutating operations (`load`, `goTo`, `addSlide`, `deleteSlide`,
the text-input handler, `onImportFile`, `save`/`init`) as pure Lean
functions, modelling JavaScript value semantics (truthiness, `ToNumber`
coercion with NaN, `Array.prototype.splice` index normalization)
explicitly.  `genId()` (Date.now + Math.random) is modelled by an
abstract stream `gen : Nat → String` supplying the successive generated
identifiers; the id baked into the module-level `defaultSlides` is the
parameter `did`.  Fractional JSON numbers are outside the modelled
scope: `Json.num` carries an `Int`, and string-to-number coercion
recognizes optionally signed decimal integer literals (other strings
coerce to NaN).
-/

/-- JSON values as produced by `JSON.parse` (numbers restricted to
integers, see the header comment). -/
inductive Json where
  | null : Json
  | bool (b : Bool) : Json
  | num (n : Int) : Json
  | str (s : String) : Json
  | arr (xs : List Json) : Json
  | obj (fields : List (String × Json)) : Json

/-- A JavaScript value as can be stored in `state.current`: `undefined`,
the number NaN, or a JSON value.  NaN arises from `Math.min`/`Math.max`
on a non-numeric `current` field; `undefined` from reading a missing
property. -/
inductive JsVal where
  | undef : JsVal
  | nan : JsVal
  | val (j : Json) : JsVal

/-- The deck state: the `slides` array and `current`.  After a load
or an import the slide entries are raw JSON values, so `slides` is a
list of `Json`; `current` is a `JsVal`, since the code can store NaN
there. -/
structure Deck where
  slides : List Json
  current : JsVal

/-- Property lookup on a literal object: `JSON.parse` keeps the last
occurrence of a duplicated key, so lookup returns the last binding. -/
def jlookup (fields : List (String × Json)) (k : String) : Option Json :=
  fields.foldl (fun acc p => if p.1 = k then some p.2 else acc) none

/-- Property read `o[k]` as a `JsVal` (missing key gives `undefined`). -/
def fieldJV (fields : List (String × Json)) (k : String) : JsVal :=
  match jlookup fields k with
  | some v => JsVal.val v
  | none => JsVal.undef

/-- Property read `s.k` on an arbitrary non-null JSON value: only
objects have own properties, everything else yields `undefined`.
(Callers must handle `null` themselves: reading a property of `null`
throws.) -/
def jsField (s : Json) (k : String) : Option Json :=
  match s with
  | Json.obj fields => jlookup fields k
  | _ => none

/-- JavaScript truthiness of a JSON value. -/
def truthy : Json → Bool
  | Json.null => false
  | Json.bool b => b
  | Json.num n => n != 0
  | Json.str s => s != ""
  | Json.arr _ => true
  | Json.obj _ => true

/-- Truthiness of a `JsVal` (`undefined` and NaN are falsy). -/
def jsvTruthy : JsVal → Bool
  | JsVal.undef => false
  | JsVal.nan => false
  | JsVal.val j => truthy j

/-- Whitespace stripped by the string-to-number conversion (space,
tab, line feed, carriage return, form feed, vertical tab). -/
def isSpaceChar (c : Char) : Bool :=
  c = ' ' || c = '\t' || c = '\n' || c = '\r' || c = Char.ofNat 12 || c = Char.ofNat 11

/-- Strip leading and trailing whitespace from a character list. -/
def trimChars (cs : List Char) : List Char :=
  ((cs.dropWhile isSpaceChar).reverse.dropWhile isSpaceChar).reverse

/-- Decimal digit sequence to a natural number (`none` when empty or
containing a non-digit). -/
def digitsVal (s : List Char) : Option Nat :=
  if s = [] then none
  else if s.all Char.isDigit then
    some (s.foldl (fun a c => a * 10 + (c.toNat - 48)) 0)
  else none

/-- JavaScript `ToNumber` on a string: trimmed empty string is 0, an
optionally signed decimal integer literal is its value, anything else
is NaN (`none`).  Fractional, hexadecimal and exponent literals are
outside the modelled scope. -/
def strToNumber (s : String) : Option Int :=
  match trimChars s.data with
  | [] => some 0
  | c :: cs =>
    if c = '-' then (digitsVal cs).map (fun n => -(n : Int))
    else if c = '+' then (digitsVal cs).map (fun n => (n : Int))
    else (digitsVal (c :: cs)).map (fun n => (n : Int))

mutual
/-- JavaScript `String(v)` for a JSON value (`ToPrimitive` followed by
`ToString`): arrays join their elements with commas, objects display as
`[object Object]`. -/
def jsDisplay : Json → String
  | Json.null => ("null")
  | Json.bool b => cond b ("true") ("false")
  | Json.num n => toString n
  | Json.str s => s
  | Json.arr xs => jsDisplayList xs
  | Json.obj _ => ("[object Object]")
termination_by j => (sizeOf j, 0)

/-- `Array.prototype.join` with separator ",". -/
def jsDisplayList : List Json → String
  | [] => ("")
  | [j] => jsDisplayElem j
  | j :: rest => jsDisplayElem j ++ (",") ++ jsDisplayList rest
termination_by l => (sizeOf l, 0)

/-- One element inside `join`: `null` (and `undefined`) become the
empty string, everything else its `String` conversion. -/
def jsDisplayElem : Json → String
  | Json.null => ("")
  | j => jsDisplay j
termination_by j => (sizeOf j, 1)
end

/-- JavaScript `ToNumber` of a JSON value (`none` is NaN). -/
def jsonToNumber : Json → Option Int
  | Json.null => some 0
  | Json.bool b => some (cond b 1 0)
  | Json.num n => some n
  | Json.str s => strToNumber s
  | Json.arr xs => strToNumber (jsDisplay (Json.arr xs))
  | Json.obj _ => none

/-- `ToNumber` of a `JsVal` (`undefined` coerces to NaN). -/
def toNumberJV : JsVal → Option Int
  | JsVal.undef => none
  | JsVal.nan => none
  | JsVal.val j => jsonToNumber j

/-- Key of the `slides` field. -/
def keySlides : String := "slides"

/-- Key of the `current` field. -/
def keyCurrent : String := "current"

/-- Key of the `id` field of a slide. -/
def keyId : String := "id"

/-- Key of the `text` field of a slide. -/
def keyText : String := "text"

/-- Text of the module-level default slide. -/
def defaultText : String := "Título de la presentación\n\nHaz doble clic aquí para editar."

/-- Placeholder text of a slide created by `addSlide`. -/
def newSlideText : String := "Nueva diapositiva"

/-- The single default slide of `defaultSlides`; `did` is the id
produced by the module-load call to `genId()`. -/
def defaultSlide (did : String) : Json :=
  Json.obj [(keyId, Json.str did), (keyText, Json.str defaultText)]

/-- The default deck `{ slides: defaultSlides.slice(), current: 0 }`. -/
def defaultDeck (did : String) : Deck :=
  { slides := [defaultSlide did], current := JsVal.val (Json.num 0) }

/-- The clamping expression
`Math.min(Math.max(0, cur || 0), len - 1)` shared by `load()` and
`onImportFile`: a falsy `current` is replaced by 0, the value is
coerced to a number (NaN propagates through `Math.max`/`Math.min`),
then clamped from below by 0 and from above by `len - 1`. -/
def clampCur (cur : JsVal) (len : Int) : JsVal :=
  match (if jsvTruthy cur then toNumberJV cur else some 0) with
  | none => JsVal.nan
  | some n => JsVal.val (Json.num (min (max 0 n) (len - 1)))

/-- What `load()` finds under the storage key: the key is absent (or
holds a falsy raw string), holds a string `JSON.parse` rejects, or
holds a string parsing to a JSON document. -/
inductive StoredValue where
  | absent : StoredValue
  | parseFail : StoredValue
  | parsed (j : Json) : StoredValue

/-- The body of `load()` after a successful parse: `state = parsed`;
if `state.slides` is not a non-empty array the state is reset to the
default deck (reading `state.slides` on a parsed `null` throws and
lands in the same default via the catch block); otherwise the parsed
slides are adopted as they are and `state.current` is clamped. -/
def loadParsed (did : String) (j : Json) : Deck :=
  match j with
  | Json.obj fields =>
    match jlookup fields keySlides with
    | some (Json.arr xs) =>
      if xs.length = 0 then defaultDeck did
      else { slides := xs, current := clampCur (fieldJV fields keyCurrent) (xs.length : Int) }
    | _ => defaultDeck did
  | _ => defaultDeck did

/-- `load()`: absent raw value and parse failure both yield the
default deck (the latter through the catch block); a parsed document
goes through `loadParsed`. -/
def loadDeck (did : String) : StoredValue → Deck
  | StoredValue.absent => defaultDeck did
  | StoredValue.parseFail => defaultDeck did
  | StoredValue.parsed j => loadParsed did j

/-- An operation on the durable store (`localStorage`): the read done
by `load()` or the write done by `save()`. -/
inductive StoreOp where
  | read : StoreOp
  | write (d : Deck) : StoreOp

/-- `load()` viewed with its storage effect: one read, then the
validated deck. -/
def loadEff (did : String) (sv : StoredValue) : Deck × List StoreOp :=
  (loadDeck did sv, [StoreOp.read])

/-- `renderSlides()`: rebuilds the DOM, touches no state and does no
storage operation of its own. -/
def renderSlidesEff (d : Deck) : Deck × List StoreOp :=
  (d, [])

/-- `attachEvents()`: registers listeners only. -/
def attachEventsEff (d : Deck) : Deck × List StoreOp :=
  (d, [])

/-- `updateUI()`: refreshes labels and button states and then calls
`save()`, writing the current deck to the durable store. -/
def updateUIEff (d : Deck) : Deck × List StoreOp :=
  (d, [StoreOp.write d])

/-- `init()` = `load(); renderSlides(); attachEvents(); updateUI();`
with the storage operations of each step concatenated in order. -/
def initEff (did : String) (sv : StoredValue) : Deck × List StoreOp :=
  let s1 := loadEff did sv
  let s2 := renderSlidesEff s1.1
  let s3 := attachEventsEff s2.1
  let s4 := updateUIEff s3.1
  (s4.1, s1.2 ++ s2.2 ++ s3.2 ++ s4.2)

/-- `Array.prototype.splice` start-index normalization: NaN becomes 0,
a negative index counts from the end (clamped at 0), a large index is
clamped to the length. -/
def spliceIndex (n : Option Int) (len : Nat) : Nat :=
  match n with
  | none => 0
  | some i => if i < 0 then (max ((len : Int) + i) 0).toNat else min i.toNat len

/-- Insertion of `a` before position `n` (`splice(n, 0, a)` semantics:
a position at or beyond the end appends). -/
def insertAt : List Json → Nat → Json → List Json
  | xs, 0, a => a :: xs
  | [], _ + 1, a => [a]
  | x :: xs, n + 1, a => x :: insertAt xs n a

/-- Removal of the element at position `n` (`splice(n, 1)` semantics:
a position at or beyond the end removes nothing). -/
def removeAt : List Json → Nat → List Json
  | [], _ => []
  | _ :: xs, 0 => xs
  | x :: xs, n + 1 => x :: removeAt xs n

/-- JavaScript `state.current + 1`: numeric addition on numbers,
string concatenation when `current` holds a string (or an array or
object, via their string conversion), NaN from `undefined` or NaN. -/
def jsvAdd1 : JsVal → JsVal
  | JsVal.undef => JsVal.nan
  | JsVal.nan => JsVal.nan
  | JsVal.val Json.null => JsVal.val (Json.num 1)
  | JsVal.val (Json.bool b) => JsVal.val (Json.num (cond b 2 1))
  | JsVal.val (Json.num n) => JsVal.val (Json.num (n + 1))
  | JsVal.val (Json.str s) => JsVal.val (Json.str (s ++ ("1")))
  | JsVal.val (Json.arr xs) => JsVal.val (Json.str (jsDisplay (Json.arr xs) ++ ("1")))
  | JsVal.val (Json.obj f) => JsVal.val (Json.str (jsDisplay (Json.obj f) ++ ("1")))

/-- `goTo(idx)` for an integer argument: clamp below by 0, clamp above
by `slides.length - 1`, then either return early (strict equality with
`state.current`, which only holds when `current` is that number) or
store the new index.  The function never throws; `updateUI`/`save`
side effects do not change the deck. -/
def goTo (d : Deck) (i : Int) : Deck :=
  let idx1 : Int := if i < 0 then 0 else i
  let idx2 : Int := if idx1 > (d.slides.length : Int) - 1 then (d.slides.length : Int) - 1 else idx1
  match d.current with
  | JsVal.val (Json.num c) =>
    if c = idx2 then d else { d with current := JsVal.val (Json.num idx2) }
  | _ => { d with current := JsVal.val (Json.num idx2) }

/-- `addSlide()`: a new slide object with a generated id and the
placeholder text is spliced in at `current + 1` and `current` is set
to `current + 1`.  `gid` is the id returned by this call of
`genId()`. -/
def addSlide (gid : String) (d : Deck) : Deck :=
  let newSlide := Json.obj [(keyId, Json.str gid), (keyText, Json.str newSlideText)]
  let cur1 := jsvAdd1 d.current
  { slides := insertAt d.slides (spliceIndex (toNumberJV cur1) d.slides.length) newSlide,
    current := cur1 }

/-- `deleteSlide()` once the confirmation dialog has been accepted
(the guard `slides.length === 0` returns early on an empty deck):
`splice(current, 1)` removes the slide at the (splice-normalized)
current position, then `current` is pulled back to
`Math.max(0, slides.length - 1)` when it is at least the new length
(a NaN `current` compares false and is kept). -/
def deleteSlide (d : Deck) : Deck :=
  if d.slides.length = 0 then d
  else
    let slides2 := removeAt d.slides (spliceIndex (toNumberJV d.current) d.slides.length)
    let cur2 :=
      match toNumberJV d.current with
      | some m =>
        if (slides2.length : Int) ≤ m then JsVal.val (Json.num (max 0 ((slides2.length : Int) - 1)))
        else d.current
      | none => d.current
    { slides := slides2, current := cur2 }

/-- Write of value `v` to key `k` of an object (`o[k] = v`): replaces
an existing binding, otherwise appends one. -/
def setKey (fields : List (String × Json)) (k : String) (v : Json) : List (String × Json) :=
  if fields.any (fun p => p.1 = k) then fields.map (fun p => if p.1 = k then (k, v) else p)
  else fields ++ [(k, v)]

/-- The text-input handler of `renderSlides` (the setSlideText
operation of the specification): `state.slides[idx].text = t` followed
by `save()`.  The boolean records whether the statement threw: reading
`slides[idx]` past the end yields `undefined` and the `.text`
assignment on `undefined` (or on a `null` element) throws a TypeError
before any state change; a property write on a primitive element is
silently ignored in non-strict mode, and a property added to an array
element is invisible to the serialized document. -/
def setSlideText (d : Deck) (idx : Nat) (t : String) : Deck × Bool :=
  match d.slides[idx]? with
  | none => (d, true)
  | some Json.null => (d, true)
  | some (Json.obj fields) =>
    ({ d with slides := d.slides.set idx (Json.obj (setKey fields keyText (Json.str t))) }, false)
  | some _ => (d, false)

/-- The bytes handed to `onImportFile`: either a file `JSON.parse`
rejects or one parsing to a JSON document. -/
inductive ImportInput where
  | parseFail : ImportInput
  | parsed (data : Json) : ImportInput

/-- The body of the map callback
`s => ({ id: s.id || genId(), text: s.text || '' })` for a non-null
element: a falsy or missing id is replaced by the `k`-th generated id
(advancing the generation counter), a falsy or missing text by the
empty string. -/
def normSlide (gen : Nat → String) (k : Nat) (s : Json) : Json × Nat :=
  let idPart : Json × Nat :=
    match jsField s keyId with
    | some v => if truthy v then (v, k) else (Json.str (gen k), k + 1)
    | none => (Json.str (gen k), k + 1)
  let textPart : Json :=
    match jsField s keyText with
    | some v => if truthy v then v else Json.str ""
    | none => Json.str ""
  (Json.obj [(keyId, idPart.1), (keyText, textPart)], idPart.2)

/-- `state.slides.map(s => ({ id: s.id || genId(), text: s.text || '' }))`
evaluated left to right: reading `s.id` of a `null` element throws,
aborting the map (and losing the partial results). -/
def normSlidesE (gen : Nat → String) (k : Nat) : List Json → Except Unit (List Json × Nat)
  | [] => Except.ok ([], k)
  | s :: rest =>
    match s with
    | Json.null => Except.error ()
    | _ =>
      let p := normSlide gen k s
      match normSlidesE gen p.2 rest with
      | Except.error e => Except.error e
      | Except.ok q => Except.ok (p.1 :: q.1, q.2)

/-- The same normalizing map written as a total function (used to
state what the map produces when no element is null). -/
def normSlides (gen : Nat → String) (k : Nat) : List Json → List Json × Nat
  | [] => ([], k)
  | s :: rest =>
    let p := normSlide gen k s
    let q := normSlides gen p.2 rest
    (p.1 :: q.1, q.2)

/-- The interior of the `try` block of `onImportFile` once
`data.slides` is known to be an array `xs`: `state = data` has already
happened, so a throw inside the map leaves the raw document installed
(slides `xs`, `current` the raw field); on success the mapped slides
replace `state.slides` and `state.current` is clamped against the new
length.  The boolean records whether the catch block ran. -/
def importSlides (gen : Nat → String) (fields : List (String × Json)) (xs : List Json) :
    Deck × Bool :=
  match normSlidesE gen 0 xs with
  | Except.error _ => ({ slides := xs, current := fieldJV fields keyCurrent }, true)
  | Except.ok p =>
    ({ slides := p.1, current := clampCur (fieldJV fields keyCurrent) (p.1.length : Int) }, false)

/-- The `try` block applied to a parsed document: reading
`data.slides` of `null` throws, a missing or non-array `slides`
field throws `new Error` — in both cases before `state = data`, so the
previous deck `d` survives. -/
def importParsed (gen : Nat → String) (d : Deck) (data : Json) : Deck × Bool :=
  match data with
  | Json.obj fields =>
    match jlookup fields keySlides with
    | some (Json.arr xs) => importSlides gen fields xs
    | _ => (d, true)
  | _ => (d, true)

/-- `onImportFile` on the supplied bytes (the importDocument operation
of the specification): a parse failure is caught with the deck `d`
untouched; a parsed document goes through `importParsed`.  The boolean
records whether the failure alert was shown. -/
def importDocument (gen : Nat → String) (d : Deck) : ImportInput → Deck × Bool
  | ImportInput.parseFail => (d, true)
  | ImportInput.parsed data => importParsed gen d data

/-- `JSON.stringify(state)` at the document level: `undefined`
properties are dropped, a NaN number serializes as `null`. -/
def serialize (d : Deck) : Json :=
  match d.current with
  | JsVal.undef => Json.obj [(keySlides, Json.arr d.slides)]
  | JsVal.nan => Json.obj [(keySlides, Json.arr d.slides), (keyCurrent, Json.null)]
  | JsVal.val j => Json.obj [(keySlides, Json.arr d.slides), (keyCurrent, j)]

/-- One user action of the add/delete fragment of the interface; the
payload of `add` is the id generated for the new slide. -/
inductive Op where
  | add (gid : String) : Op
  | del : Op

/-- Apply one action to the deck. -/
def applyOp (d : Deck) : Op → Deck
  | Op.add gid => addSlide gid d
  | Op.del => deleteSlide d

/-- Run a sequence of add/delete actions from left to right. -/
def runOps (d : Deck) (ops : List Op) : Deck :=
  ops.foldl applyOp d

/-- Deterministic id stream standing in for `genId()` in closed
statements. -/
def genW : Nat → String := fun n => String.append ("gen") (toString n)

/-- Concrete slide fixture. -/
def slideA : Json := Json.obj [(keyId, Json.str ("a")), (keyText, Json.str ("alpha"))]

/-- Concrete slide fixture. -/
def slideB : Json := Json.obj [(keyId, Json.str ("b")), (keyText, Json.str ("beta"))]

/-- A concrete two-slide deck satisfying the documented invariants. -/
def deckTwo : Deck := { slides := [slideA, slideB], current := JsVal.val (Json.num 0) }

/-- Import document whose slides array contains a `null` entry. -/
def docNullSlide : Json :=
  Json.obj [(keySlides, Json.arr [Json.null]), (keyCurrent, Json.num 0)]

/-- The import document of the specification example:
`{ "slides": [{"text":"A"}], "current": 99 }`. -/
def docTextA : Json :=
  Json.obj [(keySlides, Json.arr [Json.obj [(keyText, Json.str ("A"))]]), (keyCurrent, Json.num 99)]

/-- Import document with an empty slides array and a non-numeric
current field. -/
def docEmptyNan : Json :=
  Json.obj [(keySlides, Json.arr []), (keyCurrent, Json.str ("x"))]

/-- Import document with an empty slides array and current 0. -/
def docEmptyZero : Json :=
  Json.obj [(keySlides, Json.arr []), (keyCurrent, Json.num 0)]

/-- Stored document with a well-formed slides array and a non-numeric
current field. -/
def docCurNan : Json :=
  Json.obj [(keySlides, Json.arr [slideA]), (keyCurrent, Json.str ("x"))]

theorem insertAt_length (xs : List Json) (n : Nat) (a : Json) :
    (insertAt xs n a).length = xs.length + 1 := by
  induction xs generalizing n with
  | nil => cases n <;> simp [insertAt]
  | cons x rest ih =>
    cases n with
    | zero => simp [insertAt]
    | succ m => simp [insertAt, ih]

theorem normSlidesE_eq_normSlides (gen : Nat → String) : ∀ (xs : List Json) (k : Nat),
    Json.null ∉ xs → normSlidesE gen k xs = Except.ok (normSlides gen k xs) := by
  intro xs
  induction xs with
  | nil => intro k h; rfl
  | cons s rest ih =>
    intro k h
    have hr : Json.null ∉ rest := fun hm => h (List.mem_cons_of_mem s hm)
    cases s with
    | null => exact absurd (List.mem_cons_self _ _) h
    | bool b => simp [normSlidesE, normSlides, ih _ hr]
    | num n => simp [normSlidesE, normSlides, ih _ hr]
    | str s2 => simp [normSlidesE, normSlides, ih _ hr]
    | arr xs2 => simp [normSlidesE, normSlides, ih _ hr]
    | obj f2 => simp [normSlidesE, normSlides, ih _ hr]

theorem normSlides_length (gen : Nat → String) : ∀ (xs : List Json) (k : Nat),
    ((normSlides gen k xs).1).length = xs.length := by
  intro xs
  induction xs with
  | nil => intro k; rfl
  | cons s rest ih => intro k; simp [normSlides, ih]

theorem normSlidesE_error_mem (gen : Nat → String) (xs : List Json) (k : Nat) (e : Unit)
    (h : normSlidesE gen k xs = Except.error e) : Json.null ∈ xs := by
  by_contra hn
  rw [normSlidesE_eq_normSlides gen xs k hn] at h
  exact Except.noConfusion h

theorem clampCur_num (n L : Int) :
    clampCur (JsVal.val (Json.num n)) L = JsVal.val (Json.num (min (max 0 n) (L - 1))) := by
  by_cases h : n = 0
  · subst h; simp [clampCur, jsvTruthy, truthy, toNumberJV, jsonToNumber]
  · simp [clampCur, jsvTruthy, truthy, toNumberJV, jsonToNumber, h]

theorem clampCur_undef (L : Int) :
    clampCur JsVal.undef L = JsVal.val (Json.num (min 0 (L - 1))) := by
  simp [clampCur, jsvTruthy]

theorem clampCur_null (L : Int) :
    clampCur (JsVal.val Json.null) L = JsVal.val (Json.num (min 0 (L - 1))) := by
  simp [clampCur, jsvTruthy, truthy]

theorem addSlide_inv (g : String) (d : Deck) (c : Int)
    (h1 : d.current = JsVal.val (Json.num c)) (h2 : 0 ≤ c)
    (h3 : c ≤ (d.slides.length : Int)) :
    ∃ c2 : Int, (addSlide g d).current = JsVal.val (Json.num c2) ∧ 0 ≤ c2 ∧
      c2 ≤ ((addSlide g d).slides.length : Int) := by
  refine ⟨c + 1, ?_, by omega, ?_⟩
  · simp [addSlide, h1, jsvAdd1]
  · simp [addSlide, h1, jsvAdd1, insertAt_length]
    omega

theorem deleteSlide_inv (d : Deck) (c : Int)
    (h1 : d.current = JsVal.val (Json.num c)) (h2 : 0 ≤ c)
    (h3 : c ≤ (d.slides.length : Int)) :
    ∃ c2 : Int, (deleteSlide d).current = JsVal.val (Json.num c2) ∧ 0 ≤ c2 ∧
      c2 ≤ ((deleteSlide d).slides.length : Int) := by
  cases d with
  | mk slides cur =>
    dsimp only at h1 h3 ⊢
    subst h1
    by_cases hl : slides.length = 0
    · refine ⟨c, ?_, h2, ?_⟩
      · simp [deleteSlide, hl]
      · simp [deleteSlide, hl]
        omega
    · have hred : deleteSlide ⟨slides, JsVal.val (Json.num c)⟩ =
        { slides := removeAt slides (spliceIndex (some c) slides.length),
          current :=
            if ((removeAt slides (spliceIndex (some c) slides.length)).length : Int) ≤ c
            then JsVal.val
              (Json.num (max 0 (((removeAt slides (spliceIndex (some c) slides.length)).length : Int) - 1)))
            else JsVal.val (Json.num c) } := by
        simp [deleteSlide, hl, toNumberJV, jsonToNumber]
      rw [hred]
      by_cases hge : ((removeAt slides (spliceIndex (some c) slides.length)).length : Int) ≤ c
      · refine ⟨max 0 (((removeAt slides (spliceIndex (some c) slides.length)).length : Int) - 1), ?_, by omega, ?_⟩
        · simp [hge]
        · simp [hge]
          try omega
      · refine ⟨c, ?_, h2, ?_⟩
        · simp [hge]
        · simp [hge]
          try omega

theorem runOps_inv : ∀ (ops : List Op) (d : Deck) (c : Int),
    d.current = JsVal.val (Json.num c) → 0 ≤ c → c ≤ (d.slides.length : Int) →
    ∃ c2 : Int, (runOps d ops).current = JsVal.val (Json.num c2) ∧ 0 ≤ c2 ∧
      c2 ≤ ((runOps d ops).slides.length : Int) := by
  intro ops
  induction ops with
  | nil => intro d c h1 h2 h3; exact ⟨c, h1, h2, h3⟩
  | cons op rest ih =>
    intro d c h1 h2 h3
    have hstep : runOps d (op :: rest) = runOps (applyOp d op) rest := rfl
    rw [hstep]
    cases op with
    | add gid =>
      obtain ⟨c2, g1, g2, g3⟩ := addSlide_inv gid d c h1 h2 h3
      exact ih (addSlide gid d) c2 g1 g2 g3
    | del =>
      obtain ⟨c2, g1, g2, g3⟩ := deleteSlide_inv d c h1 h2 h3
      exact ih (deleteSlide d) c2 g1 g2 g3

/-- C1: the claim as stated is false (see the counterexample: deleting
the only slide yields a deck of length 0, violating
`slides.length >= 1`, and adding to an empty deck yields
`current = slides.length`, violating `current <= slides.length - 1`).
Amended claim: for every sequence of `addSlide`/`deleteSlide` calls
starting from a deck satisfying the invariants
(`slides.length >= 1` and `0 <= current <= slides.length - 1`), after
each call the weaker bounds `0 <= current <= slides.length` hold, with
`current` still an integer. -/
theorem addDelete_invariant (d : Deck) (ops : List Op) (c : Int)
    (hc : d.current = JsVal.val (Json.num c)) (h0 : 0 ≤ c)
    (h1 : c ≤ (d.slides.length : Int) - 1) (_hlen : 1 ≤ d.slides.length) :
    ∀ n : Nat, ∃ c2 : Int,
      (runOps d (ops.take n)).current = JsVal.val (Json.num c2) ∧ 0 ≤ c2 ∧
      c2 ≤ ((runOps d (ops.take n)).slides.length : Int) := by
  intro n
  exact runOps_inv (ops.take n) d c hc h0 (by omega)

/-- C1 witness: the amended invariant at a concrete deck and a
concrete call sequence. -/
theorem addDelete_invariant_witness :
    ∃ c2 : Int,
      (runOps deckTwo ([Op.del, Op.add ("w1")].take 2)).current = JsVal.val (Json.num c2) ∧
      0 ≤ c2 ∧
      c2 ≤ ((runOps deckTwo ([Op.del, Op.add ("w1")].take 2)).slides.length : Int) :=
  addDelete_invariant deckTwo [Op.del, Op.add ("w1")] 0 rfl (by decide) (by decide) (by decide) 2

/-- C1 counterexample: the default deck satisfies the invariants, yet
after one `deleteSlide` call the slide list has length 0, so
`slides.length >= 1` fails after that call. -/
theorem addDelete_invariant_cex :
    (runOps (defaultDeck ("d1")) [Op.del]).slides.length = 0 := rfl

/-- C2: the claim as stated is false (see the counterexample: the
result has size 0, not 1, and no default slide is substituted).
Amended claim: `deleteSlide` on a deck of size 1 whose current index
is 0 yields the empty deck with `current = 0`; the empty slide list is
produced, and no fresh default slide replaces it (the default-slide
substitution happens only in `load`). -/
theorem deleteSlide_singleton (d : Deck) (s : Json)
    (hs : d.slides = [s]) (hc : d.current = JsVal.val (Json.num 0)) :
    deleteSlide d = { slides := [], current := JsVal.val (Json.num 0) } := by
  cases d with
  | mk slides cur =>
    dsimp only at hs hc
    subst hs
    subst hc
    simp [deleteSlide, toNumberJV, jsonToNumber, spliceIndex, removeAt]

/-- C2 witness: the amended behavior at a concrete one-slide deck. -/
theorem deleteSlide_singleton_witness :
    deleteSlide { slides := [slideA], current := JsVal.val (Json.num 0) } =
      { slides := [], current := JsVal.val (Json.num 0) } :=
  deleteSlide_singleton { slides := [slideA], current := JsVal.val (Json.num 0) } slideA rfl rfl

/-- C2 counterexample: `deleteSlide` on a concrete deck of size 1
yields a deck of size 0, not a deck of size 1 with a fresh default
slide. -/
theorem deleteSlide_singleton_cex :
    (deleteSlide (defaultDeck ("d2"))).slides.length = 0 := rfl

/-- C5: the claim as stated is false (see the counterexample: the
text-edit handler throws on an out-of-range index).  Amended claim:
for every deck and every index at or past the end of `slides`, the
text-edit handler `state.slides[idx].text = t` throws (reading
`slides[idx]` yields `undefined`, and the property assignment on
`undefined` raises a TypeError) and the deck is left completely
unchanged — every slide and `current` are as before, since the throw
happens before any state write; it is not the silent no-op the claim
describes. -/
theorem setSlideText_outOfRange (d : Deck) (idx : Nat) (t : String)
    (h : d.slides.length ≤ idx) :
    setSlideText d idx t = (d, true) := by
  simp [setSlideText, List.getElem?_eq_none h]

/-- C5 witness: the amended behavior at index 7 of a two-slide deck. -/
theorem setSlideText_outOfRange_witness :
    setSlideText deckTwo 7 ("y") = (deckTwo, true) :=
  setSlideText_outOfRange deckTwo 7 ("y") (by decide)

/-- C5 counterexample: `setSlideText(5, "x")` on a concrete two-slide
deck throws (the boolean is true), contradicting the claim that the
call never throws. -/
theorem setSlideText_outOfRange_cex :
    (setSlideText deckTwo 5 ("x")).2 = true := rfl

/-- C6: confirmed.  For every deck with at least one slide and an
integer current index, and every integer `i`, `goTo i` sets `current`
to `min (max i 0) (slides.length - 1)` — the clamp of `i` into
`[0, slides.length - 1]`, whose bounds are the last two conjuncts —
while changing nothing else; the function is total (never throws), and
when the clamped value equals the current index the deck is returned
unchanged. -/
theorem goTo_clamps (d : Deck) (i : Int) (c : Int)
    (hlen : 1 ≤ d.slides.length) (hc : d.current = JsVal.val (Json.num c)) :
    goTo d i = { d with current := JsVal.val (Json.num (min (max i 0) ((d.slides.length : Int) - 1))) } ∧
    (min (max i 0) ((d.slides.length : Int) - 1) = c → goTo d i = d) ∧
    0 ≤ min (max i 0) ((d.slides.length : Int) - 1) ∧
    min (max i 0) ((d.slides.length : Int) - 1) ≤ (d.slides.length : Int) - 1 := by
  have hidx :
      (if (if i < 0 then 0 else i) > (d.slides.length : Int) - 1
        then (d.slides.length : Int) - 1 else (if i < 0 then 0 else i)) =
      min (max i 0) ((d.slides.length : Int) - 1) := by
    split_ifs <;> omega
  have hgo : goTo d i = (if min (max i 0) ((d.slides.length : Int) - 1) = c then d
      else { d with current := JsVal.val (Json.num (min (max i 0) ((d.slides.length : Int) - 1))) }) := by
    rw [goTo, hc]
    dsimp only
    rw [hidx]
    by_cases hce : c = min (max i 0) ((d.slides.length : Int) - 1)
    · rw [if_pos hce, if_pos hce.symm]
    · rw [if_neg hce, if_neg (fun h => hce h.symm)]
  refine ⟨?_, ?_, by omega, by omega⟩
  · rw [hgo]
    by_cases hce : min (max i 0) ((d.slides.length : Int) - 1) = c
    · rw [if_pos hce, hce, ← hc]
    · rw [if_neg hce]
  · intro hce
    rw [hgo, if_pos hce]

/-- C6 witness: `goTo 99` on a concrete two-slide deck with current 0
clamps to index 1. -/
theorem goTo_clamps_witness :
    goTo deckTwo 99 = { deckTwo with current := JsVal.val (Json.num (min (max 99 0) ((deckTwo.slides.length : Int) - 1))) } ∧
    (min (max 99 0) ((deckTwo.slides.length : Int) - 1) = 0 → goTo deckTwo 99 = deckTwo) ∧
    0 ≤ min (max 99 0) ((deckTwo.slides.length : Int) - 1) ∧
    min (max 99 0) ((deckTwo.slides.length : Int) - 1) ≤ (deckTwo.slides.length : Int) - 1 :=
  goTo_clamps deckTwo 99 0 (by decide) rfl

/-- C8: the claim as stated is false (see the counterexample: the
startup sequence writes to the durable store).  Amended claim: for
every stored value, `init()` performs exactly one read of the durable
store (in `load`) followed by exactly one write (the `save()` call
inside the initial `updateUI()`), and the value written is the
post-validation deck produced by the load. -/
theorem init_storage_trace (did : String) (sv : StoredValue) :
    initEff did sv = (loadDeck did sv, [StoreOp.read, StoreOp.write (loadDeck did sv)]) := rfl

/-- C8 counterexample: with an absent stored value, the startup
sequence performs a write of the default deck to the durable store,
contradicting the claim that initialization performs no write. -/
theorem init_storage_trace_cex :
    (initEff ("d8") StoredValue.absent).2 =
      [StoreOp.read, StoreOp.write (defaultDeck ("d8"))] := rfl

/-- C9: the claim as stated is false (see the counterexample: a valid
stored document whose current field is a non-numeric string loads with
`current = NaN`, not a value clamped into `[0, slides.length - 1]`).
Amended claim: a stored value that is absent, fails to parse, or
parses to a document whose slides field is not a non-empty array
yields the default single-slide deck with current 0, without
surfacing any error (the load function is total); a stored document
with a non-empty slides array is adopted verbatim, and when its
current field is a number n (or is absent, treated as 0) the loaded
current is `min (max 0 n) (slides.length - 1)`, which does lie in
`[0, slides.length - 1]`; a non-numeric current field instead loads
as NaN. -/
theorem load_behavior (did : String) :
    loadDeck did StoredValue.absent = defaultDeck did ∧
    loadDeck did StoredValue.parseFail = defaultDeck did ∧
    loadDeck did (StoredValue.parsed Json.null) = defaultDeck did ∧
    (∀ b : Bool, loadDeck did (StoredValue.parsed (Json.bool b)) = defaultDeck did) ∧
    (∀ n : Int, loadDeck did (StoredValue.parsed (Json.num n)) = defaultDeck did) ∧
    (∀ s : String, loadDeck did (StoredValue.parsed (Json.str s)) = defaultDeck did) ∧
    (∀ xs : List Json, loadDeck did (StoredValue.parsed (Json.arr xs)) = defaultDeck did) ∧
    (∀ fields, jlookup fields keySlides = none →
      loadDeck did (StoredValue.parsed (Json.obj fields)) = defaultDeck did) ∧
    (∀ fields v, jlookup fields keySlides = some v → (∀ xs : List Json, v ≠ Json.arr xs) →
      loadDeck did (StoredValue.parsed (Json.obj fields)) = defaultDeck did) ∧
    (∀ fields, jlookup fields keySlides = some (Json.arr []) →
      loadDeck did (StoredValue.parsed (Json.obj fields)) = defaultDeck did) ∧
    (∀ fields xs, jlookup fields keySlides = some (Json.arr xs) → xs ≠ [] →
      (loadDeck did (StoredValue.parsed (Json.obj fields))).slides = xs ∧
      (∀ n : Int, jlookup fields keyCurrent = some (Json.num n) →
        (loadDeck did (StoredValue.parsed (Json.obj fields))).current =
          JsVal.val (Json.num (min (max 0 n) ((xs.length : Int) - 1))) ∧
        0 ≤ min (max 0 n) ((xs.length : Int) - 1) ∧
        min (max 0 n) ((xs.length : Int) - 1) ≤ (xs.length : Int) - 1) ∧
      (jlookup fields keyCurrent = none →
        (loadDeck did (StoredValue.parsed (Json.obj fields))).current =
          JsVal.val (Json.num 0))) := by
  refine ⟨rfl, rfl, rfl, fun b => rfl, fun n => rfl, fun s => rfl, fun xs => rfl, ?_, ?_, ?_, ?_⟩
  · intro fields h
    simp [loadDeck, loadParsed, h]
  · intro fields v h hv
    cases v with
    | arr xs => exact absurd rfl (hv xs)
    | null => simp [loadDeck, loadParsed, h]
    | bool b => simp [loadDeck, loadParsed, h]
    | num n => simp [loadDeck, loadParsed, h]
    | str s => simp [loadDeck, loadParsed, h]
    | obj f => simp [loadDeck, loadParsed, h]
  · intro fields h
    simp [loadDeck, loadParsed, h]
  · intro fields xs h hne
    have hlen : xs.length ≠ 0 := fun h0 => hne (List.length_eq_zero.mp h0)
    have hred : loadDeck did (StoredValue.parsed (Json.obj fields)) =
        { slides := xs, current := clampCur (fieldJV fields keyCurrent) (xs.length : Int) } := by
      simp [loadDeck, loadParsed, h, hlen]
    have hpos : 1 ≤ xs.length := Nat.one_le_iff_ne_zero.mpr hlen
    refine ⟨by rw [hred], ?_, ?_⟩
    · intro n hn
      rw [hred]
      refine ⟨?_, by omega, by omega⟩
      simp only [fieldJV, hn]
      exact clampCur_num n (xs.length : Int)
    · intro hn
      rw [hred]
      simp only [fieldJV, hn]
      rw [clampCur_undef]
      have : min 0 ((xs.length : Int) - 1) = 0 := by omega
      rw [this]

/-- C9 witness: a concrete valid stored document with current 5 and
one slide loads with current clamped to 0. -/
theorem load_behavior_witness :
    (loadDeck ("w9") (StoredValue.parsed (Json.obj [(keySlides, Json.arr [slideA]), (keyCurrent, Json.num 5)]))).current =
      JsVal.val (Json.num 0) := by
  have h := ((load_behavior ("w9")).2.2.2.2.2.2.2.2.2.2
    [(keySlides, Json.arr [slideA]), (keyCurrent, Json.num 5)] [slideA]
    rfl (fun hh => List.noConfusion hh)).2.1 5 rfl
  exact h.1

/-- C9 counterexample: a stored document with a well-formed non-empty
slides array and the non-numeric current field "x" loads with a NaN
current, which is not the integer clamp into `[0, 0]` that the claim
requires. -/
theorem load_behavior_cex :
    (loadDeck ("d9") (StoredValue.parsed docCurNan)).current = JsVal.nan ∧
    JsVal.nan ≠ JsVal.val (Json.num 0) :=
  ⟨rfl, fun h => JsVal.noConfusion h⟩

/-- C10: confirmed.  For every deck of the data model (non-empty
slides, integer current), parsing the serialized document back through
the load validation reproduces the deck exactly up to the clamping
that initialize applies: the slide list — order, ids, texts — is
preserved verbatim and current becomes `min (max 0 c) (length - 1)`;
when the current index already satisfies the invariants the round
trip is the identity. -/
theorem serialize_roundTrip (did : String) (d : Deck) (c : Int)
    (hne : d.slides ≠ []) (hc : d.current = JsVal.val (Json.num c)) :
    loadDeck did (StoredValue.parsed (serialize d)) =
      { slides := d.slides,
        current := JsVal.val (Json.num (min (max 0 c) ((d.slides.length : Int) - 1))) } ∧
    (0 ≤ c → c ≤ (d.slides.length : Int) - 1 →
      loadDeck did (StoredValue.parsed (serialize d)) = d) := by
  have hlen : d.slides.length ≠ 0 := fun h0 => hne (List.length_eq_zero.mp h0)
  have hser : serialize d = Json.obj [(keySlides, Json.arr d.slides), (keyCurrent, Json.num c)] := by
    rw [serialize, hc]
  have hlook : jlookup [(keySlides, Json.arr d.slides), (keyCurrent, Json.num c)] keySlides =
      some (Json.arr d.slides) := by
    simp [jlookup, keySlides, keyCurrent]
  have hlookc : jlookup [(keySlides, Json.arr d.slides), (keyCurrent, Json.num c)] keyCurrent =
      some (Json.num c) := by
    simp [jlookup, keySlides, keyCurrent]
  have hmain : loadDeck did (StoredValue.parsed (serialize d)) =
      { slides := d.slides,
        current := JsVal.val (Json.num (min (max 0 c) ((d.slides.length : Int) - 1))) } := by
    rw [hser]
    simp only [loadDeck, loadParsed, hlook]
    rw [if_neg hlen]
    simp only [fieldJV, hlookc]
    rw [clampCur_num]
  refine ⟨hmain, fun h0 h1 => ?_⟩
  rw [hmain]
  have hmm : min (max 0 c) ((d.slides.length : Int) - 1) = c := by omega
  rw [hmm, ← hc]

/-- C10 witness: the round trip at a concrete two-slide deck with
current 0 is the identity. -/
theorem serialize_roundTrip_witness :
    loadDeck ("wt") (StoredValue.parsed (serialize deckTwo)) =
      { slides := deckTwo.slides,
        current := JsVal.val (Json.num (min (max 0 0) ((deckTwo.slides.length : Int) - 1))) } ∧
    (0 ≤ (0 : Int) → (0 : Int) ≤ (deckTwo.slides.length : Int) - 1 →
      loadDeck ("wt") (StoredValue.parsed (serialize deckTwo)) = deckTwo) :=
  serialize_roundTrip ("wt") deckTwo 0 (fun h => List.noConfusion h) rfl

/-- C3: the claim as stated is false (see the counterexample: an
imported document whose slides array contains a null entry fails, yet
the live deck has been replaced).  Amended claim: when `importDocument` fails,
the error is surfaced and either the live deck is exactly the deck
before the call — this covers every input that fails to parse, parses
to a non-object, or has a missing or non-array slides field — or the
document has an array slides field containing a null entry, in which
case the failure happens after `state = data` and the live deck is the
raw imported document (slides verbatim, current the raw field):
partial mutation is observable in exactly that case. -/
theorem import_failure_behavior (gen : Nat → String) (d : Deck) (inp : ImportInput)
    (h : (importDocument gen d inp).2 = true) :
    (importDocument gen d inp).1 = d ∨
    ∃ fields xs, inp = ImportInput.parsed (Json.obj fields) ∧
      jlookup fields keySlides = some (Json.arr xs) ∧ Json.null ∈ xs ∧
      (importDocument gen d inp).1 = { slides := xs, current := fieldJV fields keyCurrent } := by
  cases inp with
  | parseFail => exact Or.inl rfl
  | parsed data =>
    cases data with
    | null => exact Or.inl rfl
    | bool b => exact Or.inl rfl
    | num n => exact Or.inl rfl
    | str s => exact Or.inl rfl
    | arr ys => exact Or.inl rfl
    | obj fields =>
      cases hlook : jlookup fields keySlides with
      | none =>
        left
        simp [importDocument, importParsed, hlook]
      | some v =>
        cases v with
        | arr xs =>
          cases hnorm : normSlidesE gen 0 xs with
          | error e =>
            right
            refine ⟨fields, xs, rfl, hlook, normSlidesE_error_mem gen xs 0 e hnorm, ?_⟩
            simp [importDocument, importParsed, importSlides, hlook, hnorm]
          | ok p =>
            exfalso
            have hfalse : (importDocument gen d (ImportInput.parsed (Json.obj fields))).2 = false := by
              simp [importDocument, importParsed, importSlides, hlook, hnorm]
            rw [h] at hfalse
            exact Bool.noConfusion hfalse
        | null => left; simp [importDocument, importParsed, hlook]
        | bool b => left; simp [importDocument, importParsed, hlook]
        | num n => left; simp [importDocument, importParsed, hlook]
        | str s => left; simp [importDocument, importParsed, hlook]
        | obj f2 => left; simp [importDocument, importParsed, hlook]

/-- C3 witness: a parse failure leaves the concrete deck unchanged. -/
theorem import_failure_behavior_witness :
    (importDocument genW deckTwo ImportInput.parseFail).1 = deckTwo ∨
    ∃ fields xs, ImportInput.parseFail = ImportInput.parsed (Json.obj fields) ∧
      jlookup fields keySlides = some (Json.arr xs) ∧ Json.null ∈ xs ∧
      (importDocument genW deckTwo ImportInput.parseFail).1 =
        { slides := xs, current := fieldJV fields keyCurrent } :=
  import_failure_behavior genW deckTwo ImportInput.parseFail rfl

/-- C3 counterexample: importing the document
`{ "slides": [null], "current": 0 }` into a two-slide deck fails (the
error flag is set), yet the live deck afterwards has one slide — the
raw document — instead of the two slides it had before the call, so
the failure is observable as a partial mutation. -/
theorem import_failure_behavior_cex :
    (importDocument genW deckTwo (ImportInput.parsed docNullSlide)).2 = true ∧
    (importDocument genW deckTwo (ImportInput.parsed docNullSlide)).1.slides.length = 1 ∧
    deckTwo.slides.length = 2 :=
  ⟨rfl, rfl, rfl⟩

/-- C4: the claim as stated is false in one corner (see the
counterexample: an empty slides array together with a non-numeric
current field yields current NaN, not -1).  Amended claim: importing a
document whose parsed slides field is an empty array raises no error
and replaces the live deck with one whose slides has length 0 — unlike
initialize, which treats an empty slides array as invalid and falls
back to the default deck — and the resulting current equals -1
whenever the current field is absent, null, or a number; a current
field that does not coerce to a number yields NaN instead. -/
theorem import_emptySlides (gen : Nat → String) (d : Deck) (did : String)
    (fields : List (String × Json))
    (hs : jlookup fields keySlides = some (Json.arr [])) :
    (importDocument gen d (ImportInput.parsed (Json.obj fields))).2 = false ∧
    (importDocument gen d (ImportInput.parsed (Json.obj fields))).1.slides = [] ∧
    (jlookup fields keyCurrent = none →
      (importDocument gen d (ImportInput.parsed (Json.obj fields))).1.current =
        JsVal.val (Json.num (-1))) ∧
    (∀ n : Int, jlookup fields keyCurrent = some (Json.num n) →
      (importDocument gen d (ImportInput.parsed (Json.obj fields))).1.current =
        JsVal.val (Json.num (-1))) ∧
    (jlookup fields keyCurrent = some Json.null →
      (importDocument gen d (ImportInput.parsed (Json.obj fields))).1.current =
        JsVal.val (Json.num (-1))) ∧
    loadDeck did (StoredValue.parsed (Json.obj fields)) = defaultDeck did := by
  have hred : importDocument gen d (ImportInput.parsed (Json.obj fields)) =
      ({ slides := [], current := clampCur (fieldJV fields keyCurrent) 0 }, false) := by
    simp [importDocument, importParsed, hs, importSlides, normSlidesE]
  refine ⟨by rw [hred], by rw [hred], ?_, ?_, ?_, ?_⟩
  · intro hcur
    rw [hred]
    dsimp only
    simp only [fieldJV, hcur]
    rw [clampCur_undef]
    have hm : min (0 : Int) ((0 : Int) - 1) = -1 := by omega
    rw [hm]
  · intro n hcur
    rw [hred]
    dsimp only
    simp only [fieldJV, hcur]
    rw [clampCur_num]
    have hm : min (max 0 n) ((0 : Int) - 1) = -1 := by omega
    rw [hm]
  · intro hcur
    rw [hred]
    dsimp only
    simp only [fieldJV, hcur]
    rw [clampCur_null]
    have hm : min (0 : Int) ((0 : Int) - 1) = -1 := by omega
    rw [hm]
  · simp [loadDeck, loadParsed, hs]

/-- C4 witness: importing `{ "slides": [], "current": 0 }` succeeds
with an empty slide list and current -1, while loading the same
document falls back to the default deck. -/
theorem import_emptySlides_witness :
    (importDocument genW deckTwo (ImportInput.parsed (Json.obj [(keySlides, Json.arr []), (keyCurrent, Json.num 0)]))).2 = false ∧
    (importDocument genW deckTwo (ImportInput.parsed (Json.obj [(keySlides, Json.arr []), (keyCurrent, Json.num 0)]))).1.slides = [] ∧
    (jlookup [(keySlides, Json.arr []), (keyCurrent, Json.num 0)] keyCurrent = none →
      (importDocument genW deckTwo (ImportInput.parsed (Json.obj [(keySlides, Json.arr []), (keyCurrent, Json.num 0)]))).1.current =
        JsVal.val (Json.num (-1))) ∧
    (∀ n : Int, jlookup [(keySlides, Json.arr []), (keyCurrent, Json.num 0)] keyCurrent = some (Json.num n) →
      (importDocument genW deckTwo (ImportInput.parsed (Json.obj [(keySlides, Json.arr []), (keyCurrent, Json.num 0)]))).1.current =
        JsVal.val (Json.num (-1))) ∧
    (jlookup [(keySlides, Json.arr []), (keyCurrent, Json.num 0)] keyCurrent = some Json.null →
      (importDocument genW deckTwo (ImportInput.parsed (Json.obj [(keySlides, Json.arr []), (keyCurrent, Json.num 0)]))).1.current =
        JsVal.val (Json.num (-1))) ∧
    loadDeck ("w4") (StoredValue.parsed (Json.obj [(keySlides, Json.arr []), (keyCurrent, Json.num 0)])) = defaultDeck ("w4") :=
  import_emptySlides genW deckTwo ("w4") [(keySlides, Json.arr []), (keyCurrent, Json.num 0)] rfl

/-- C4 counterexample: importing `{ "slides": [], "current": "x" }`
succeeds with an empty slide list, but the resulting current is NaN,
not the -1 the claim requires for every document with an empty slides
array. -/
theorem import_emptySlides_cex :
    (importDocument genW deckTwo (ImportInput.parsed docEmptyNan)).2 = false ∧
    (importDocument genW deckTwo (ImportInput.parsed docEmptyNan)).1.slides.length = 0 ∧
    (importDocument genW deckTwo (ImportInput.parsed docEmptyNan)).1.current = JsVal.nan ∧
    JsVal.nan ≠ JsVal.val (Json.num (-1)) :=
  ⟨rfl, rfl, rfl, fun h => JsVal.noConfusion h⟩

/-- C7: the claim as stated is false (see the counterexample: a slides
array containing a null entry makes the operation fail rather than
succeed).  Amended claim: for every import whose parsed slides field
is an ordered sequence containing no null entry, the operation
succeeds and normalizes each slide — a missing or falsy id is replaced
by a freshly generated id and a missing or falsy text becomes the
empty string (the `normSlides` map) — and sets current to
`min (max 0 current) (slides.length - 1)` when the current field is a
number and the slide list is non-empty, a value that lies in
`[0, slides.length - 1]`; in particular importing
`{ "slides": [{"text":"A"}], "current": 99 }` succeeds with a
generated id and current 0 (the witness). -/
theorem import_success (gen : Nat → String) (d : Deck)
    (fields : List (String × Json)) (xs : List Json)
    (hs : jlookup fields keySlides = some (Json.arr xs)) (hn : Json.null ∉ xs) :
    importDocument gen d (ImportInput.parsed (Json.obj fields)) =
      ({ slides := (normSlides gen 0 xs).1,
         current := clampCur (fieldJV fields keyCurrent) ((normSlides gen 0 xs).1.length : Int) }, false) ∧
    (normSlides gen 0 xs).1.length = xs.length ∧
    (∀ n : Int, jlookup fields keyCurrent = some (Json.num n) → xs ≠ [] →
      (importDocument gen d (ImportInput.parsed (Json.obj fields))).1.current =
        JsVal.val (Json.num (min (max 0 n) ((xs.length : Int) - 1))) ∧
      0 ≤ min (max 0 n) ((xs.length : Int) - 1) ∧
      min (max 0 n) ((xs.length : Int) - 1) ≤ (xs.length : Int) - 1) := by
  have hok := normSlidesE_eq_normSlides gen xs 0 hn
  have hlen := normSlides_length gen xs 0
  have hred : importDocument gen d (ImportInput.parsed (Json.obj fields)) =
      ({ slides := (normSlides gen 0 xs).1,
         current := clampCur (fieldJV fields keyCurrent) ((normSlides gen 0 xs).1.length : Int) }, false) := by
    simp [importDocument, importParsed, hs, importSlides, hok]
  refine ⟨hred, hlen, ?_⟩
  intro n hcur hne
  have hpos : 1 ≤ xs.length := List.length_pos.mpr hne
  rw [hred]
  dsimp only
  simp only [fieldJV, hcur]
  rw [clampCur_num, hlen]
  exact ⟨rfl, by omega, by omega⟩

/-- C7 witness: the amended behavior at the specification example
`{ "slides": [{"text":"A"}], "current": 99 }`. -/
theorem import_success_witness :
    importDocument genW deckTwo (ImportInput.parsed (Json.obj [(keySlides, Json.arr [Json.obj [(keyText, Json.str ("A"))]]), (keyCurrent, Json.num 99)])) =
      ({ slides := (normSlides genW 0 [Json.obj [(keyText, Json.str ("A"))]]).1,
         current := clampCur (fieldJV [(keySlides, Json.arr [Json.obj [(keyText, Json.str ("A"))]]), (keyCurrent, Json.num 99)] keyCurrent)
           ((normSlides genW 0 [Json.obj [(keyText, Json.str ("A"))]]).1.length : Int) }, false) ∧
    (normSlides genW 0 [Json.obj [(keyText, Json.str ("A"))]]).1.length =
      [Json.obj [(keyText, Json.str ("A"))]].length ∧
    (∀ n : Int, jlookup [(keySlides, Json.arr [Json.obj [(keyText, Json.str ("A"))]]), (keyCurrent, Json.num 99)] keyCurrent = some (Json.num n) →
      [Json.obj [(keyText, Json.str ("A"))]] ≠ [] →
      (importDocument genW deckTwo (ImportInput.parsed (Json.obj [(keySlides, Json.arr [Json.obj [(keyText, Json.str ("A"))]]), (keyCurrent, Json.num 99)]))).1.current =
        JsVal.val (Json.num (min (max 0 n) ((([Json.obj [(keyText, Json.str ("A"))]].length : Int)) - 1))) ∧
      0 ≤ min (max 0 n) ((([Json.obj [(keyText, Json.str ("A"))]].length : Int)) - 1) ∧
      min (max 0 n) ((([Json.obj [(keyText, Json.str ("A"))]].length : Int)) - 1) ≤
        (([Json.obj [(keyText, Json.str ("A"))]].length : Int)) - 1) :=
  import_success genW deckTwo
    [(keySlides, Json.arr [Json.obj [(keyText, Json.str ("A"))]]), (keyCurrent, Json.num 99)]
    [Json.obj [(keyText, Json.str ("A"))]] rfl (by simp)

/-- C7 counterexample: the document `{ "slides": [null], "current": 0 }`
has an ordered sequence in its slides field, yet the import fails (the
error flag is set) instead of succeeding as the claim requires; the
slide with a generated id is never produced. -/
theorem import_success_cex :
    (importDocument genW deckTwo (ImportInput.parsed docNullSlide)).2 = true := rfl
